import Mathlib

/-!
Shallow embedding of the budget-app core (src/school_calendar.py and the
pure functions of src/app.py) together with proofs of the spec claims.

Numeric amounts are modelled as rationals (`ℚ`); Python `math.floor` /
`math.ceil` become `Int.floor` / `Int.ceil`; Python's nullable amounts
become `Option ℚ`.
-/

namespace BudgetApp

/-- A calendar date, mirroring Python's `datetime.date` (year, month, day). -/
structure Date where
  year : ℕ
  month : ℕ
  day : ℕ
deriving DecidableEq

/-- Gregorian leap-year test, as used by Python's `calendar.monthrange`. -/
def isLeap (y : ℕ) : Bool :=
  (y % 4 == 0 && y % 100 != 0) || (y % 400 == 0)

/-- Number of days in a month, i.e. `calendar.monthrange(y, m)[1]` for `1 ≤ m ≤ 12`. -/
def daysInMonth (y m : ℕ) : ℕ :=
  if m = 2 then (if isLeap y then 29 else 28)
  else if m = 4 ∨ m = 6 ∨ m = 9 ∨ m = 11 then 30
  else 31

/-- Days in year `y` before the first day of month `m`. -/
def daysBeforeMonth (y m : ℕ) : ℕ :=
  ((List.range (m - 1)).map (fun k => daysInMonth y (k + 1))).sum

/-- Days in the proleptic Gregorian calendar strictly before year `y` (y ≥ 1). -/
def daysBeforeYear (y : ℕ) : ℕ :=
  365 * (y - 1) + (y - 1) / 4 - (y - 1) / 100 + (y - 1) / 400

/-- Rata-die day number of a date: `date.toordinal()` in Python. -/
def rataDie (d : Date) : ℕ :=
  daysBeforeYear d.year + daysBeforeMonth d.year d.month + d.day

/-- Python's `date.weekday()`: Monday = 0, …, Sunday = 6. -/
def weekday (d : Date) : ℕ :=
  (rataDie d + 6) % 7

/-- Python date comparison `a <= b` (chronological, i.e. lexicographic on a valid date). -/
def dateLe (a b : Date) : Bool :=
  a.year < b.year ||
    (a.year == b.year &&
      (a.month < b.month || (a.month == b.month && a.day ≤ b.day)))

/-- Python date comparison `a < b`. -/
def dateLt (a b : Date) : Bool :=
  a.year < b.year ||
    (a.year == b.year &&
      (a.month < b.month || (a.month == b.month && a.day < b.day)))

/-- A date whose components denote an actual calendar day. -/
def ValidDate (d : Date) : Prop :=
  1 ≤ d.year ∧ 1 ≤ d.month ∧ d.month ≤ 12 ∧ 1 ≤ d.day ∧ d.day ≤ daysInMonth d.year d.month

instance (d : Date) : Decidable (ValidDate d) := by
  unfold ValidDate; infer_instance

/-- `SCHOOL_HOLIDAYS` from src/school_calendar.py: closed vacation intervals. -/
def SCHOOL_HOLIDAYS : List (Date × Date) :=
  [ (⟨2025, 10, 18⟩, ⟨2025, 11, 2⟩),
    (⟨2025, 12, 20⟩, ⟨2026, 1, 4⟩),
    (⟨2026, 2, 21⟩, ⟨2026, 3, 8⟩),
    (⟨2026, 4, 18⟩, ⟨2026, 5, 3⟩),
    (⟨2026, 5, 14⟩, ⟨2026, 5, 17⟩),
    (⟨2026, 7, 4⟩, ⟨2026, 8, 31⟩) ]

/-- `PUBLIC_HOLIDAYS` from src/school_calendar.py. -/
def PUBLIC_HOLIDAYS : List Date :=
  [ ⟨2025, 11, 1⟩, ⟨2025, 11, 11⟩, ⟨2025, 12, 25⟩, ⟨2026, 1, 1⟩,
    ⟨2026, 4, 6⟩, ⟨2026, 5, 1⟩, ⟨2026, 5, 8⟩, ⟨2026, 5, 14⟩,
    ⟨2026, 5, 25⟩, ⟨2026, 7, 14⟩, ⟨2026, 8, 15⟩ ]

/-- `is_school_day` from src/school_calendar.py. -/
def is_school_day (d : Date) : Bool :=
  if 5 ≤ weekday d then false
  else if PUBLIC_HOLIDAYS.contains d then false
  else if SCHOOL_HOLIDAYS.any (fun iv => dateLe iv.1 d && dateLe d iv.2) then false
  else true

/-- Round a rational to 2 decimal places, modelling Python's `round(x, 2)`.
(Python rounds half to even; on the reachable values, which are exact
multiples of a cent, no tie ever occurs, so half-up `round` coincides.) -/
def round2 (q : ℚ) : ℚ :=
  (round (q * 100) : ℚ) / 100

/-- `calculate_girls_food` from src/school_calendar.py: the loop over the
days of the month skips Wednesdays, counts school days, and the result is
`round(count * 10.2, 2)`. -/
def calculate_girls_food (year month : ℕ) : ℚ :=
  let days := daysInMonth year month
  let count := (List.range days).countP (fun i =>
    !(weekday ⟨year, month, i + 1⟩ == 2) && is_school_day ⟨year, month, i + 1⟩)
  round2 ((count : ℚ) * 10.2)

/-- `calculate_days_until_25` from src/school_calendar.py, with `today`
made an explicit argument (`date.today()` in the source). -/
def calculate_days_until_25 (today : Date) : ℤ :=
  if today.day < 25 then (25 : ℤ) - today.day
  else
    let next_25 : Date :=
      if today.month = 12 then ⟨today.year + 1, 1, 25⟩
      else ⟨today.year, today.month + 1, 25⟩
    (rataDie next_25 : ℤ) - (rataDie today : ℤ)

/-- A ledger line item (row of `current_expenses`): nullable `amount`,
boolean `is_cleared`. -/
structure Item where
  amount : Option ℚ
  is_cleared : Bool
deriving DecidableEq

/-- A pending transaction (row of `pending_transactions`): an `amount`. -/
structure PendingTx where
  amount : ℚ
deriving DecidableEq

/-- Python truthiness of a nullable amount, as tested by `r['amount']` in
`compute_remaining`: `None` and `0` are falsy, every other number truthy. -/
def truthy : Option ℚ → Bool
  | none => false
  | some q => decide (q ≠ 0)

/-- The numeric value of an item's amount (only used on items whose amount
passed the `truthy` filter, so the `0` default is never reached there). -/
def amountVal (r : Item) : ℚ :=
  r.amount.getD 0

/-- `compute_remaining` from src/app.py:
income floored, expenses ceiled, result floored; only uncleared items with
truthy amounts count; every pending transaction is ceiled and subtracted. -/
def compute_remaining (balance future savings_ignore girls_total : ℚ)
    (income_items expense_items : List Item)
    (pending_transactions : List PendingTx) : ℤ :=
  let income_sum : ℤ :=
    ((income_items.filter (fun r => !r.is_cleared && truthy r.amount)).map
      (fun r => ⌊amountVal r⌋)).sum
  let expense_sum : ℤ :=
    ((expense_items.filter (fun r => !r.is_cleared && truthy r.amount)).map
      (fun r => ⌈amountVal r⌉)).sum
  let pending_sum : ℤ :=
    (pending_transactions.map (fun r => ⌈r.amount⌉)).sum
  let raw : ℚ :=
    balance + future + income_sum - expense_sum - pending_sum - savings_ignore - girls_total
  ⌊raw⌋

/-- `per_day` from the `index` route of src/app.py:
`math.floor(remaining / days) if days > 0 else 0`. -/
def per_day (remaining days : ℤ) : ℤ :=
  if days > 0 then ⌊(remaining : ℚ) / (days : ℚ)⌋ else 0

/-!  Spec-side definitions, phrased from the claims' words, to be compared
with the source embeddings above. -/

/-- Spec wording: sum of `floor(amount)` over income items that are not
cleared and have non-null, non-zero amount. -/
def spec_income_sum (items : List Item) : ℤ :=
  ((items.filter (fun r => !r.is_cleared && decide (r.amount ≠ none) &&
      decide (r.amount ≠ some 0))).map (fun r => ⌊amountVal r⌋)).sum

/-- Spec wording: sum of `ceil(amount)` over expense items that are not
cleared and have non-null, non-zero amount. -/
def spec_expense_sum (items : List Item) : ℤ :=
  ((items.filter (fun r => !r.is_cleared && decide (r.amount ≠ none) &&
      decide (r.amount ≠ some 0))).map (fun r => ⌈amountVal r⌉)).sum

/-- Spec wording: sum of `ceil(amount)` over all pending transactions. -/
def spec_pending_sum (txs : List PendingTx) : ℤ :=
  (txs.map (fun r => ⌈r.amount⌉)).sum

/-- Spec wording: the number of calendar days of the month whose weekday is
not Wednesday and which are school days. -/
def spec_lunch_days (year month : ℕ) : ℕ :=
  ((Finset.Icc 1 (daysInMonth year month)).filter (fun day =>
    weekday ⟨year, month, day⟩ ≠ 2 ∧ is_school_day ⟨year, month, day⟩ = true)).card

/-- Spec wording for `calculate_days_until_25`: before the 25th, the gap to
the 25th; otherwise the calendar-day difference to the 25th of the next
month, December rolling over to January of the next year. -/
def spec_days_until_25 (today : Date) : ℤ :=
  if today.day < 25 then (25 : ℤ) - today.day
  else
    let target : Date :=
      if today.month = 12 then ⟨today.year + 1, 1, 25⟩
      else ⟨today.year, today.month + 1, 25⟩
    (rataDie target : ℤ) - (rataDie today : ℤ)

/-!  Helper lemmas. -/

/-- The code's truthiness filter on a nullable amount coincides with the
spec's "non-null and non-zero" condition. -/
lemma truthy_eq (a : Option ℚ) :
    truthy a = (decide (a ≠ none) && decide (a ≠ some 0)) := by
  cases a with
  | none => simp [truthy]
  | some q => simp [truthy]

/-- C1: `compute_remaining` implements the spec formula
`floor(balance + future + income_sum − expense_sum − pending_sum −
savings_ignore − girls_total)` with the spec's floored/ceiled filtered sums,
and on the spec's worked example (income 100.7 uncleared and 50 cleared,
expense 30.3 uncleared, all scalars 0, no pending) it returns 69. -/
theorem C1_compute_remaining_formula :
    (∀ (balance future savings_ignore girls_total : ℚ)
        (income_items expense_items : List Item) (pending : List PendingTx),
        compute_remaining balance future savings_ignore girls_total
            income_items expense_items pending =
          ⌊balance + future + (spec_income_sum income_items : ℚ)
              - (spec_expense_sum expense_items : ℚ)
              - (spec_pending_sum pending : ℚ)
              - savings_ignore - girls_total⌋) ∧
    compute_remaining 0 0 0 0
        [⟨some (1007/10), false⟩, ⟨some 50, true⟩]
        [⟨some (303/10), false⟩] [] = 69 := by
  constructor
  · intro balance future savings_ignore girls_total income_items expense_items pending
    simp only [compute_remaining, spec_income_sum, spec_expense_sum, spec_pending_sum,
      truthy_eq, Bool.and_assoc]
  · have h1 : ⌊(1007 / 10 : ℚ)⌋ = 100 := by
      rw [Int.floor_eq_iff]; norm_num
    have h2 : ⌈(303 / 10 : ℚ)⌉ = 31 := by
      rw [Int.ceil_eq_iff]; norm_num
    norm_num [compute_remaining, truthy, amountVal, h1, h2]

/-- C4: `is_school_day d` holds exactly when `d` is a Monday–Friday that is
neither a public holiday nor inside any school-holiday interval; in
particular every Saturday and Sunday is not a school day. -/
theorem C4_is_school_day_charac :
    ∀ d : Date,
      (is_school_day d = true ↔
        weekday d < 5 ∧ d ∉ PUBLIC_HOLIDAYS ∧
          ∀ iv ∈ SCHOOL_HOLIDAYS, ¬(dateLe iv.1 d = true ∧ dateLe d iv.2 = true)) ∧
      (5 ≤ weekday d → is_school_day d = false) := by
  intro d
  constructor
  · unfold is_school_day
    split_ifs with h1 h2 h3
    · simp only [Bool.false_eq_true, false_iff]
      rintro ⟨hlt, -, -⟩
      omega
    · simp only [Bool.false_eq_true, false_iff]
      rintro ⟨-, hmem, -⟩
      simp only [List.contains, List.elem_eq_mem, decide_eq_true_eq] at h2
      exact hmem h2
    · simp only [Bool.false_eq_true, false_iff]
      rintro ⟨-, -, hiv⟩
      rw [List.any_eq_true] at h3
      obtain ⟨iv, hmem, hin⟩ := h3
      rw [Bool.and_eq_true] at hin
      exact hiv iv hmem hin
    · simp only [true_iff]
      refine ⟨by omega, ?_, ?_⟩
      · simp only [List.contains, List.elem_eq_mem, decide_eq_true_eq] at h2
        exact h2
      · intro iv hmem hin
        apply h3
        rw [List.any_eq_true]
        exact ⟨iv, hmem, by rw [Bool.and_eq_true]; exact hin⟩
  · intro h
    unfold is_school_day
    rw [if_pos h]

/-- C4 witness: 2025-10-18 is a Saturday (weekday 5) and is not a school day. -/
theorem C4_witness :
    5 ≤ weekday ⟨2025, 10, 18⟩ ∧ is_school_day ⟨2025, 10, 18⟩ = false :=
  ⟨by decide, (C4_is_school_day_charac ⟨2025, 10, 18⟩).2 (by decide)⟩

/-- C6: an item whose amount is null or zero contributes nothing to
`compute_remaining`, whatever its cleared flag: removing it from the income
list or from the expense list leaves the result unchanged. -/
theorem C6_null_zero_item_irrelevant (r : Item)
    (h : r.amount = none ∨ r.amount = some 0) :
    ∀ (balance future savings_ignore girls_total : ℚ)
      (l1 l2 : List Item) (other : List Item) (pending : List PendingTx),
      compute_remaining balance future savings_ignore girls_total
          (l1 ++ r :: l2) other pending =
        compute_remaining balance future savings_ignore girls_total
          (l1 ++ l2) other pending ∧
      compute_remaining balance future savings_ignore girls_total
          other (l1 ++ r :: l2) pending =
        compute_remaining balance future savings_ignore girls_total
          other (l1 ++ l2) pending := by
  have ht : truthy r.amount = false := by
    rcases h with h | h <;> simp [truthy, h]
  have hp : (!r.is_cleared && truthy r.amount) = false := by
    rw [ht, Bool.and_false]
  intro balance future savings_ignore girls_total l1 l2 other pending
  constructor <;>
    simp [compute_remaining, List.filter_append, List.filter_cons, hp]

/-- C6 witness: dropping a null-amount uncleared income item from a concrete
ledger does not change the remaining amount. -/
theorem C6_witness :
    compute_remaining 1 0 0 0 ([] ++ ⟨none, false⟩ :: [⟨some 5, false⟩]) [] [] =
      compute_remaining 1 0 0 0 ([] ++ [⟨some 5, false⟩]) [] [] :=
  (C6_null_zero_item_irrelevant ⟨none, false⟩ (Or.inl rfl) 1 0 0 0
    [] [⟨some 5, false⟩] [] []).1

/-- C7: a cleared item is irrelevant to `compute_remaining`: removing it
leaves the result unchanged, and so does replacing its amount by any other
value while it stays cleared (in the income list or in the expense list). -/
theorem C7_cleared_item_irrelevant (r : Item) (h : r.is_cleared = true) :
    ∀ (balance future savings_ignore girls_total : ℚ)
      (l1 l2 : List Item) (other : List Item) (pending : List PendingTx)
      (a' : Option ℚ),
      (compute_remaining balance future savings_ignore girls_total
          (l1 ++ r :: l2) other pending =
        compute_remaining balance future savings_ignore girls_total
          (l1 ++ l2) other pending) ∧
      (compute_remaining balance future savings_ignore girls_total
          (l1 ++ (⟨a', true⟩ : Item) :: l2) other pending =
        compute_remaining balance future savings_ignore girls_total
          (l1 ++ r :: l2) other pending) ∧
      (compute_remaining balance future savings_ignore girls_total
          other (l1 ++ r :: l2) pending =
        compute_remaining balance future savings_ignore girls_total
          other (l1 ++ l2) pending) ∧
      (compute_remaining balance future savings_ignore girls_total
          other (l1 ++ (⟨a', true⟩ : Item) :: l2) pending =
        compute_remaining balance future savings_ignore girls_total
          other (l1 ++ r :: l2) pending) := by
  have hp : (!r.is_cleared && truthy r.amount) = false := by
    rw [h, Bool.not_true, Bool.false_and]
  intro balance future savings_ignore girls_total l1 l2 other pending a'
  refine ⟨?_, ?_, ?_, ?_⟩ <;>
    simp [compute_remaining, List.filter_append, List.filter_cons, hp]

/-- C7 witness: removing a concrete cleared income item of amount 50 does
not change the remaining amount. -/
theorem C7_witness :
    compute_remaining 3 0 0 0 ([] ++ ⟨some 50, true⟩ :: [⟨some 7, false⟩]) [] [] =
      compute_remaining 3 0 0 0 ([] ++ [⟨some 7, false⟩]) [] [] :=
  (C7_cleared_item_irrelevant ⟨some 50, true⟩ rfl 3 0 0 0
    [] [⟨some 7, false⟩] [] [] none).1

/-- Counting the days `1 … n` satisfying a predicate as a `Finset` card is
the same as the 0-based loop count over `List.range n`. -/
lemma card_filter_Icc_eq_countP_range (P : ℕ → Prop) [DecidablePred P] (n : ℕ) :
    ((Finset.Icc 1 n).filter P).card =
      (List.range n).countP (fun i => decide (P (i + 1))) := by
  induction n with
  | zero => simp
  | succ n ih =>
    have hIcc : Finset.Icc 1 (n + 1) = insert (n + 1) (Finset.Icc 1 n) := by
      ext x
      simp only [Finset.mem_Icc, Finset.mem_insert]
      omega
    rw [hIcc, Finset.filter_insert, List.range_succ, List.countP_append]
    by_cases hP : P (n + 1)
    · rw [if_pos hP, Finset.card_insert_of_not_mem (by simp [Finset.mem_filter])]
      simp [ih, List.countP_cons, hP]
    · rw [if_neg hP]
      simp [ih, List.countP_cons, hP]

/-- C2: for a valid year and month, `calculate_girls_food` is the number of
calendar days of the month that are non-Wednesday school days, times 10.2,
rounded to two decimal places. -/
theorem C2_girls_food_formula (year month : ℕ)
    (_hy : 1 ≤ year) (_hm1 : 1 ≤ month) (_hm2 : month ≤ 12) :
    calculate_girls_food year month =
      round2 ((spec_lunch_days year month : ℚ) * 10.2) := by
  have hpred : ∀ i : ℕ,
      (!(weekday ⟨year, month, i + 1⟩ == 2) && is_school_day ⟨year, month, i + 1⟩) =
        decide (weekday ⟨year, month, i + 1⟩ ≠ 2 ∧
          is_school_day ⟨year, month, i + 1⟩ = true) := by
    intro i
    by_cases hw : weekday ⟨year, month, i + 1⟩ = 2
    · simp [hw]
    · by_cases hs : is_school_day ⟨year, month, i + 1⟩ = true
      · simp [hw, hs]
      · simp [hw, hs]
  simp only [calculate_girls_food, spec_lunch_days,
    card_filter_Icc_eq_countP_range, hpred]

/-- C2 witness: the formula instantiated at October 2025. -/
theorem C2_witness :
    calculate_girls_food 2025 10 = round2 ((spec_lunch_days 2025 10 : ℚ) * 10.2) :=
  C2_girls_food_formula 2025 10 (by decide) (by decide) (by decide)

/-- C3: `calculate_days_until_25` matches the spec case split: before the
25th it returns `25 − day` (so 24 on the 1st of any month), from the 25th on
it returns the calendar-day difference to the 25th of the next month,
December rolling over to January of the next year. -/
theorem C3_days_until_25_formula :
    ∀ today : Date,
      calculate_days_until_25 today = spec_days_until_25 today ∧
      (today.day = 1 → calculate_days_until_25 today = 24) := by
  intro today
  refine ⟨rfl, ?_⟩
  intro h
  rw [calculate_days_until_25, if_pos (by omega), h]
  norm_num

/-- C3 witness: on 2026-03-01 the function agrees with the spec formula and
returns 24. -/
theorem C3_witness :
    calculate_days_until_25 ⟨2026, 3, 1⟩ = spec_days_until_25 ⟨2026, 3, 1⟩ ∧
      calculate_days_until_25 ⟨2026, 3, 1⟩ = 24 :=
  ⟨(C3_days_until_25_formula ⟨2026, 3, 1⟩).1,
   (C3_days_until_25_formula ⟨2026, 3, 1⟩).2 rfl⟩

/-- C9: the safe daily spend is the floor of `remaining / days` whenever
`days > 0` (equivalently, integer floor division), and the division is
guarded: for `days ≤ 0` the result is `0`. -/
theorem C9_per_day_guarded :
    ∀ remaining days : ℤ,
      (0 < days →
        per_day remaining days = ⌊(remaining : ℚ) / (days : ℚ)⌋ ∧
        per_day remaining days = remaining / days) ∧
      (days ≤ 0 → per_day remaining days = 0) := by
  intro remaining days
  constructor
  · intro hd
    refine ⟨by rw [per_day, if_pos hd], ?_⟩
    rw [per_day, if_pos hd]
    obtain ⟨n, rfl⟩ : ∃ n : ℕ, days = (n : ℤ) :=
      ⟨days.toNat, (Int.toNat_of_nonneg hd.le).symm⟩
    rw [show ((n : ℤ) : ℚ) = (n : ℚ) by push_cast; rfl]
    exact Rat.floor_intCast_div_natCast remaining n
  · intro hd
    rw [per_day, if_neg (by omega)]

/-- C9 witness: `per_day 7 3 = 7 / 3 = 2` and `per_day 7 (-1) = 0`. -/
theorem C9_witness :
    per_day 7 3 = (7 : ℤ) / 3 ∧ per_day 7 (-1) = 0 :=
  ⟨((C9_per_day_guarded 7 3).1 (by decide)).2,
   (C9_per_day_guarded 7 (-1)).2 (by decide)⟩

/-- No days precede January. -/
lemma daysBeforeMonth_one (y : ℕ) : daysBeforeMonth y 1 = 0 := rfl

/-- Days before month `m+1` are the days before month `m` plus its length. -/
lemma daysBeforeMonth_succ (y m : ℕ) (h : 1 ≤ m) :
    daysBeforeMonth y (m + 1) = daysBeforeMonth y m + daysInMonth y m := by
  obtain ⟨k, rfl⟩ : ∃ k, m = k + 1 := ⟨m - 1, by omega⟩
  unfold daysBeforeMonth
  simp [List.range_succ]

/-- Days before December: 334, or 335 in a leap year. -/
lemma daysBeforeMonth_twelve (y : ℕ) :
    daysBeforeMonth y 12 = 334 + (if isLeap y then 1 else 0) := by
  cases h : isLeap y <;>
    simp [daysBeforeMonth, List.range_succ, daysInMonth, h]

/-- A year adds 366 days if leap, else 365. -/
lemma daysBeforeYear_succ (y : ℕ) (h : 1 ≤ y) :
    daysBeforeYear (y + 1) = daysBeforeYear y + (if isLeap y then 366 else 365) := by
  obtain ⟨n, rfl⟩ : ∃ k, y = k + 1 := ⟨y - 1, by omega⟩
  unfold daysBeforeYear isLeap
  simp only [Nat.add_sub_cancel]
  have h4 := Nat.succ_div n 4
  have h100 := Nat.succ_div n 100
  have h400 := Nat.succ_div n 400
  simp only [Nat.dvd_iff_mod_eq_zero] at h4 h100 h400
  have d1 : n / 100 ≤ n / 4 := Nat.div_le_div_left (by norm_num) (by norm_num)
  have d2 : n / 4 ≤ n := Nat.div_le_self n 4
  have d3 : n / 400 ≤ n / 100 := Nat.div_le_div_left (by norm_num) (by norm_num)
  have imp1 : (n + 1) % 400 = 0 → (n + 1) % 100 = 0 := fun hc =>
    Nat.dvd_iff_mod_eq_zero.mp
      (dvd_trans (by norm_num : (100 : ℕ) ∣ 400) (Nat.dvd_iff_mod_eq_zero.mpr hc))
  have imp2 : (n + 1) % 100 = 0 → (n + 1) % 4 = 0 := fun hc =>
    Nat.dvd_iff_mod_eq_zero.mp
      (dvd_trans (by norm_num : (4 : ℕ) ∣ 100) (Nat.dvd_iff_mod_eq_zero.mpr hc))
  by_cases c4 : (n + 1) % 4 = 0 <;> by_cases c100 : (n + 1) % 100 = 0 <;>
    by_cases c400 : (n + 1) % 400 = 0 <;>
    first
      | exact absurd (imp1 c400) c100
      | exact absurd (imp2 c100) c4
      | (simp only [c4, c100, c400, if_true, if_false] at h4 h100 h400
         simp [c4, c100, c400]
         omega)

/-- December has 31 days. -/
lemma daysInMonth_twelve (y : ℕ) : daysInMonth y 12 = 31 := by
  simp [daysInMonth]

/-- C5: for every actual calendar date "today", `calculate_days_until_25`
returns at least 1: it never returns 0 or a negative number. -/
theorem C5_days_until_25_pos (today : Date) (h : ValidDate today) :
    1 ≤ calculate_days_until_25 today := by
  obtain ⟨hy, hm1, hm2, hd1, hd2⟩ := h
  simp only [calculate_days_until_25]
  split_ifs with hlt hm
  · omega
  · -- today.day ≥ 25 in December: roll to January 25 of the next year
    have hb := daysBeforeYear_succ today.year hy
    have hbm := daysBeforeMonth_twelve today.year
    have h31 : today.day ≤ 31 := by
      rw [hm, daysInMonth_twelve] at hd2
      exact hd2
    simp only [rataDie, daysBeforeMonth_one, hm]
    cases hL : isLeap today.year
    · rw [hL] at hb hbm
      norm_num at hb hbm
      omega
    · rw [hL] at hb hbm
      norm_num at hb hbm
      omega
  · -- today.day ≥ 25 in a month before December: roll to the next month
    have hbm := daysBeforeMonth_succ today.year today.month hm1
    simp only [rataDie]
    omega

/-- C5 witness: on 2025-12-31 the countdown is positive. -/
theorem C5_witness : 1 ≤ calculate_days_until_25 ⟨2025, 12, 31⟩ :=
  C5_days_until_25_pos ⟨2025, 12, 31⟩ (by decide)

/-- A date inside some school-holiday interval is not a school day. -/
lemma is_school_day_eq_false_of_holiday {d : Date}
    (h : ∃ iv ∈ SCHOOL_HOLIDAYS, dateLe iv.1 d = true ∧ dateLe d iv.2 = true) :
    is_school_day d = false := by
  unfold is_school_day
  split_ifs with h1 h2 h3
  · rfl
  · rfl
  · rfl
  · exfalso
    obtain ⟨iv, hmem, ha, hb⟩ := h
    exact h3 (List.any_eq_true.mpr
      ⟨iv, hmem, by rw [Bool.and_eq_true]; exact ⟨ha, hb⟩⟩)

/-- C8: if every day of the month lies inside some school-holiday interval,
the month has no qualifying days and `calculate_girls_food` returns 0. -/
theorem C8_full_holiday_month_zero (year month : ℕ)
    (_hm1 : 1 ≤ month) (_hm2 : month ≤ 12)
    (h : ∀ day ∈ Finset.Icc 1 (daysInMonth year month),
        ∃ iv ∈ SCHOOL_HOLIDAYS,
          dateLe iv.1 ⟨year, month, day⟩ = true ∧
          dateLe ⟨year, month, day⟩ iv.2 = true) :
    calculate_girls_food year month = 0 := by
  have hc : (List.range (daysInMonth year month)).countP (fun i =>
      !(weekday ⟨year, month, i + 1⟩ == 2) && is_school_day ⟨year, month, i + 1⟩) = 0 := by
    rw [List.countP_eq_zero]
    intro i hi
    rw [List.mem_range] at hi
    have hd := h (i + 1) (by rw [Finset.mem_Icc]; omega)
    have hs := is_school_day_eq_false_of_holiday hd
    simp [hs]
  simp only [calculate_girls_food, hc]
  norm_num [round2]

/-- C8 witness: August 2026 is fully inside the summer vacation interval and
costs exactly 0. -/
theorem C8_witness : calculate_girls_food 2026 8 = 0 :=
  C8_full_holiday_month_zero 2026 8 (by decide) (by decide) (by decide)

/-- `dateLt` composes with `dateLe` on the right. -/
lemma dateLt_trans_le {a b c : Date} (h1 : dateLt a b = true) (h2 : dateLe b c = true) :
    dateLt a c = true := by
  simp only [dateLt, dateLe, Bool.or_eq_true, Bool.and_eq_true, beq_iff_eq,
    decide_eq_true_eq] at h1 h2 ⊢
  omega

/-- A date strictly outside a closed interval on either side misses it. -/
lemma interval_miss {lo hi s e d : Date}
    (hs : dateLe lo s = true) (he : dateLe e hi = true)
    (hout : dateLt d lo = true ∨ dateLt hi d = true) :
    (dateLe s d && dateLe d e) = false := by
  cases hval : (dateLe s d && dateLe d e)
  · rfl
  · exfalso
    rw [Bool.and_eq_true] at hval
    obtain ⟨h1, h2⟩ := hval
    simp only [dateLt, dateLe, Bool.or_eq_true, Bool.and_eq_true, beq_iff_eq,
      decide_eq_true_eq] at hs he hout h1 h2
    omega

/-- A date strictly outside `[lo, hi]` differs from any date inside it. -/
lemma point_miss {lo hi hol d : Date}
    (hs : dateLe lo hol = true) (he : dateLe hol hi = true)
    (hout : dateLt d lo = true ∨ dateLt hi d = true) :
    d ≠ hol := by
  rintro rfl
  simp only [dateLt, dateLe, Bool.or_eq_true, Bool.and_eq_true, beq_iff_eq,
    decide_eq_true_eq] at hs he hout
  omega

/-- C10: the holiday tables only cover 2025-10-18 … 2026-08-31, so any
weekday before or after that window is a school day, and in particular
August 2025 (before the covered school year) has a positive canteen cost. -/
theorem C10_outside_coverage :
    (∀ d : Date,
        (dateLt d ⟨2025, 10, 18⟩ = true ∨ dateLt ⟨2026, 8, 31⟩ d = true) →
        weekday d < 5 → is_school_day d = true) ∧
    0 < calculate_girls_food 2025 8 := by
  constructor
  · intro d hout hw
    unfold is_school_day
    rw [if_neg (by omega)]
    have hpub : ¬(PUBLIC_HOLIDAYS.contains d = true) := by
      simp only [List.contains, List.elem_eq_mem, decide_eq_true_eq]
      intro hmem
      simp only [PUBLIC_HOLIDAYS, List.mem_cons, List.not_mem_nil, or_false] at hmem
      rcases hmem with rfl | rfl | rfl | rfl | rfl | rfl | rfl | rfl | rfl | rfl | rfl <;>
        exact point_miss (by decide) (by decide) hout rfl
    have hany : (SCHOOL_HOLIDAYS.any fun iv => dateLe iv.1 d && dateLe d iv.2) = false := by
      rw [List.any_eq_false]
      intro iv hmem
      simp only [SCHOOL_HOLIDAYS, List.mem_cons, List.not_mem_nil, or_false] at hmem
      rcases hmem with rfl | rfl | rfl | rfl | rfl | rfl <;>
        (rw [interval_miss (by decide) (by decide) hout]; simp)
    rw [if_neg hpub, if_neg (by simp [hany])]
  · have hcount : (List.range (daysInMonth 2025 8)).countP (fun i =>
        !(weekday ⟨2025, 8, i + 1⟩ == 2) && is_school_day ⟨2025, 8, i + 1⟩) = 17 := by
      decide
    simp only [calculate_girls_food, hcount, round2]
    have h17 : round (((17 : ℕ) : ℚ) * 10.2 * 100) = 17340 := by
      rw [round_eq, Int.floor_eq_iff]
      norm_num
    rw [h17]
    norm_num

/-- C10 witness: 2025-08-04 is a Monday before the covered window and is a
school day. -/
theorem C10_witness : is_school_day ⟨2025, 8, 4⟩ = true :=
  C10_outside_coverage.1 ⟨2025, 8, 4⟩ (Or.inl (by decide)) (by decide)

end BudgetApp
